import Mathlib

set_option maxRecDepth 20000

/-!
Verification of the ADW (AI Developer Workflow) core of rococo-sample-backend:
port allocation (`adws/adw_modules/worktree_ops.py`), the agent invocation and
retry protocol (`adws/adw_modules/agent.py`), and worktree lifecycle
management.  Python string primitives are modelled at the ASCII level (every
identifier and message manipulated by this code is ASCII).  External effects
(file system, subprocesses, `json.loads`, `socket.bind`, the per-process
string-hash seed) are supplied as explicit oracle parameters.
-/

namespace ADW

/-! ### Python string primitives -/

/-- Python `str.isalnum` for a single character, ASCII fragment. -/
def pyIsAlnum (c : Char) : Bool :=
  c.isAlphanum

/-- Value of a single base-36 digit as accepted by Python `int(_, 36)`:
decimal digits and (case-insensitive) Latin letters. -/
def digit36 (c : Char) : Option Nat :=
  if '0' ≤ c ∧ c ≤ '9' then some (c.toNat - 48)
  else if 'a' ≤ c ∧ c ≤ 'z' then some (c.toNat - 87)
  else if 'A' ≤ c ∧ c ≤ 'Z' then some (c.toNat - 55)
  else none

/-- Python `int(s, 36)` on a string of characters, returning `none` when the
parse raises `ValueError` (empty string or a non-base-36 character). -/
def pyIntBase36 (l : List Char) : Option Nat :=
  if l.isEmpty then none
  else
    l.foldl (fun acc c =>
      match acc, digit36 c with
      | some v, some d => some (v * 36 + d)
      | _, _ => none) (some 0)

/-- Python whitespace characters stripped by `str.strip` (ASCII fragment). -/
def pyIsSpace (c : Char) : Bool :=
  c = ' ' ∨ c = '\t' ∨ c = '\n' ∨ c = '\r' ∨ c = '\x0b' ∨ c = '\x0c'

/-- Python `str.strip()` on a character list. -/
def pyStripChars (l : List Char) : List Char :=
  (l.dropWhile pyIsSpace).reverse.dropWhile pyIsSpace |>.reverse

/-- Python `str.strip()`. -/
def pyStrip (s : String) : String :=
  ⟨pyStripChars s.data⟩

/-- A line is blank when `line.strip()` is falsy (empty). -/
def pyIsBlank (s : String) : Bool :=
  (pyStrip s).isEmpty

/-- Python `s[:k]` on a string. -/
def pyTake (s : String) (k : Nat) : String :=
  ⟨s.data.take k⟩

/-- Python `sub in s` substring containment, on character lists. -/
def pyContainsChars (hay needle : List Char) : Bool :=
  match hay with
  | [] => needle.isEmpty
  | _ :: t => needle.isPrefixOf hay || pyContainsChars t needle

/-- Python `sub in s` substring containment. -/
def pyContains (hay needle : String) : Bool :=
  pyContainsChars hay.data needle.data

/-- Scan indices `start + k - 1, …, start` (downwards) for the character `c`;
helper for `pyRfind`. -/
def pyRfindGo (l : List Char) (c : Char) (start : Nat) : Nat → Int
  | 0 => -1
  | k + 1 =>
    if l.get? (start + k) = some c then ((start + k : Nat) : Int)
    else pyRfindGo l c start k

/-- Python `s.rfind(c, start, stop)` for a single-character needle: the largest
index `i` with `start ≤ i < min stop (length s)` and `s[i] = c`, else `-1`. -/
def pyRfind (s : String) (c : Char) (start stop : Nat) : Int :=
  pyRfindGo s.data c start (min stop s.data.length - start)

/-- Python `os.path.join(a, b)` restricted to the two-argument form used by
this code base: an absolute second component replaces the first. -/
def pyPathJoin (a b : String) : String :=
  if b.data.head? = some '/' then b
  else if a.isEmpty then b
  else a ++ "/" ++ b

/-! ### PortAllocator (`worktree_ops.get_ports_for_adw`,
`worktree_ops.find_next_available_ports`)

`pyhash : String → Int` is the per-process salted Python `hash`; a process
restart corresponds to switching to a different `pyhash`. -/

/-- Translation of `get_ports_for_adw` (worktree_ops.py:183-196): filter the
alphanumeric characters out of the first eight characters of `adw_id`,
interpret them in base 36 modulo the pool size 15, falling back to
`hash(adw_id) % 15` when `int(id_chars, 36)` raises `ValueError`; add the base
port 9100.  Returns the `(backend_port, None)` pair of the source. -/
def get_ports_for_adw (pyhash : String → Int) (adw_id : String) : Nat × Option Nat :=
  let id_chars := (adw_id.data.take 8).filter pyIsAlnum
  match pyIntBase36 id_chars with
  | some v => (9100 + v % 15, none)
  | none => (9100 + ((pyhash adw_id) % 15).toNat, none)

/-- Rendering of the specification sentence for `deterministic_port`: "take
the first 8 alphanumeric characters of `run_id`, interpret as a base-36
integer, reduce modulo a fixed pool size (15), add to a fixed base port
number", with the hash fallback for unparseable input. -/
def spec_deterministic_port (pyhash : String → Int) (adw_id : String) : Nat :=
  let id_chars := (adw_id.data.filter pyIsAlnum).take 8
  match pyIntBase36 id_chars with
  | some v => 9100 + v % 15
  | none => 9100 + ((pyhash adw_id) % 15).toNat

/-- Amended specification of the deterministic port: the alphanumeric
characters are filtered from the first eight characters of `run_id` (truncate
first, then filter), not the first eight alphanumeric characters of the whole
string. -/
def spec_deterministic_port_amended (pyhash : String → Int) (adw_id : String) : Nat :=
  let id_chars := (adw_id.data.take 8).filter pyIsAlnum
  match pyIntBase36 id_chars with
  | some v => 9100 + v % 15
  | none => 9100 + ((pyhash adw_id) % 15).toNat

/-- The prefix of `adw_id` parses as a base-36 integer (no hash fallback). -/
def portPrefixParses (adw_id : String) : Bool :=
  (pyIntBase36 ((adw_id.data.take 8).filter pyIsAlnum)).isSome

/-- Loop of `find_next_available_ports` (worktree_ops.py:215-222): probe
`9100 + (base_index + offset) % 15` for `offset` in the first `remaining`
values, returning the first port the availability probe accepts; raise
`RuntimeError` when the attempts are exhausted. -/
def findPortsGo (avail : Nat → Bool) (base_index : Nat) (offset : Nat) :
    Nat → Except String Nat
  | 0 => .error "No available ports in the allocated range"
  | remaining + 1 =>
    let backend_port := 9100 + (base_index + offset) % 15
    if avail backend_port then .ok backend_port
    else findPortsGo avail base_index (offset + 1) remaining

/-- Translation of `find_next_available_ports` (worktree_ops.py:210-222).
`avail` is the oracle for `is_port_available` (a successful local TCP bind). -/
def find_next_available_ports (avail : Nat → Bool) (pyhash : String → Int)
    (adw_id : String) (max_attempts : Nat := 15) : Except String Nat :=
  let base_backend := (get_ports_for_adw pyhash adw_id).1
  let base_index := base_backend - 9100
  findPortsGo avail base_index 0 max_attempts

theorem get_ports_lt_pool (pyhash : String → Int) (adw_id : String) :
    (get_ports_for_adw pyhash adw_id).1 - 9100 < 15 := by
  cases hp : pyIntBase36 ((adw_id.data.take 8).filter pyIsAlnum) with
  | none =>
      simp only [get_ports_for_adw, hp]
      have h0 : (0 : Int) ≤ pyhash adw_id % 15 := Int.emod_nonneg _ (by decide)
      have h1 : pyhash adw_id % 15 < 15 := Int.emod_lt_of_pos _ (by decide)
      omega
  | some v =>
      simp only [get_ports_for_adw, hp]
      have := Nat.mod_lt v (show 0 < 15 by decide)
      omega

theorem findPortsGo_spec (avail : Nat → Bool) (base_index : Nat) :
    ∀ (remaining offset : Nat),
      (∀ p, findPortsGo avail base_index offset remaining = .ok p →
        ∃ k, k < remaining ∧ p = 9100 + (base_index + (offset + k)) % 15 ∧
          avail p = true ∧
          ∀ j, j < k → avail (9100 + (base_index + (offset + j)) % 15) = false) ∧
      (findPortsGo avail base_index offset remaining =
          .error "No available ports in the allocated range" ↔
        ∀ k, k < remaining → avail (9100 + (base_index + (offset + k)) % 15) = false) := by
  intro remaining
  induction remaining with
  | zero => intro offset; refine ⟨fun p h => by simp [findPortsGo] at h, ?_⟩
            simp [findPortsGo]
  | succ r ih =>
    intro offset
    by_cases hav : avail (9100 + (base_index + offset) % 15) = true
    · constructor
      · intro p hp
        refine ⟨0, Nat.succ_pos r, ?_, ?_, fun j hj => absurd hj (Nat.not_lt_zero j)⟩
        · simp [findPortsGo, hav] at hp; omega
        · simp [findPortsGo, hav] at hp; rw [← hp]; exact hav
      · constructor
        · intro h; simp [findPortsGo, hav] at h
        · intro h
          exact absurd hav (by simpa using h 0 (Nat.succ_pos r))
    · have hav' : avail (9100 + (base_index + offset) % 15) = false :=
        Bool.eq_false_iff.mpr (fun hc => hav hc)
      have hstep : findPortsGo avail base_index offset (r + 1) =
          findPortsGo avail base_index (offset + 1) r := by
        simp [findPortsGo, hav']
      constructor
      · intro p hp
        rw [hstep] at hp
        obtain ⟨k, hk, hpv, hpa, hmin⟩ := (ih (offset + 1)).1 p hp
        refine ⟨k + 1, by omega, by rw [hpv]; ring_nf, hpa, ?_⟩
        intro j hj
        cases j with
        | zero => simpa using hav'
        | succ j' =>
            have := hmin j' (by omega)
            have harg : base_index + (offset + 1 + j') = base_index + (offset + (j' + 1)) := by
              omega
            rw [harg] at this
            exact this
      · rw [hstep]
        rw [(ih (offset + 1)).2]
        constructor
        · intro h k hk
          cases k with
          | zero => simpa using hav'
          | succ k' =>
              have := h k' (by omega)
              have harg : base_index + (offset + 1 + k') = base_index + (offset + (k' + 1)) := by
                omega
              rw [harg] at this
              exact this
        · intro h k hk
          have := h (k + 1) (by omega)
          have harg : base_index + (offset + (k + 1)) = base_index + (offset + 1 + k) := by
            omega
          rw [harg] at this
          exact this

/-- Claim C2: `find_next_available_ports` scans the 15-slot pool linearly with
wraparound from the deterministic port's offset, returns the first candidate
the bind probe accepts — always a port in `[9100, 9115)` — and raises the
"no port available" error exactly when no port of the pool can be bound. -/
theorem find_next_available_ports_spec (avail : Nat → Bool) (pyhash : String → Int)
    (adw_id : String) :
    (∀ p, find_next_available_ports avail pyhash adw_id 15 = .ok p →
      9100 ≤ p ∧ p < 9115 ∧ avail p = true ∧
      ∃ k, k < 15 ∧ p = 9100 + (((get_ports_for_adw pyhash adw_id).1 - 9100) + k) % 15 ∧
        ∀ j, j < k →
          avail (9100 + (((get_ports_for_adw pyhash adw_id).1 - 9100) + j) % 15) = false) ∧
    (find_next_available_ports avail pyhash adw_id 15 =
        .error "No available ports in the allocated range" ↔
      ∀ q, 9100 ≤ q → q < 9115 → avail q = false) := by
  set b := (get_ports_for_adw pyhash adw_id).1 - 9100 with hb
  have hblt : b < 15 := get_ports_lt_pool pyhash adw_id
  have hmain := findPortsGo_spec avail b 15 0
  constructor
  · intro p hp
    obtain ⟨k, hk, hpv, hpa, hmin⟩ := hmain.1 p hp
    have hlt : (b + (0 + k)) % 15 < 15 := Nat.mod_lt _ (by decide)
    refine ⟨by omega, by omega, hpa, k, hk, ?_, ?_⟩
    · simpa using hpv
    · intro j hj; simpa using hmin j hj
  · rw [show find_next_available_ports avail pyhash adw_id 15 =
        findPortsGo avail b 0 15 from rfl]
    rw [hmain.2]
    constructor
    · intro h q hq1 hq2
      -- q = 9100 + r with r < 15; choose k < 15 with (b + k) % 15 = r
      have hr : q - 9100 < 15 := by omega
      have hkex : ∃ k, k < 15 ∧ (b + (0 + k)) % 15 = q - 9100 := by
        refine ⟨(15 + (q - 9100) - b) % 15, Nat.mod_lt _ (by decide), by omega⟩
      obtain ⟨k, hk, hkr⟩ := hkex
      have := h k hk
      rw [hkr] at this
      have hq : 9100 + (q - 9100) = q := by omega
      rw [hq] at this
      exact this
    · intro h k hk
      exact h _ (by omega) (by
        have : (b + (0 + k)) % 15 < 15 := Nat.mod_lt _ (by decide)
        omega)

/-- Claim C1, counterexample: for `run_id = "a-bcdefgh"` the code filters the
alphanumeric characters out of the first eight characters (`"abcdefg"`, port
9101) while the claimed formula takes the first eight alphanumeric characters
of the whole string (`"abcdefgh"`, port 9108); the two ports differ. -/
theorem get_ports_for_adw_counterexample :
    (get_ports_for_adw (fun _ => 0) "a-bcdefgh").1 = 9101 ∧
    spec_deterministic_port (fun _ => 0) "a-bcdefgh" = 9108 ∧
    (get_ports_for_adw (fun _ => 0) "a-bcdefgh").1 ≠
      spec_deterministic_port (fun _ => 0) "a-bcdefgh" := by
  refine ⟨by decide, by decide, by decide⟩

/-- Claim C1 (amended): `get_ports_for_adw` returns 9100 plus the base-36
value, modulo 15, of the alphanumeric characters among the first eight
characters of `run_id` (truncate, then filter), with a hash-based fallback for
an unparseable prefix; and whenever the prefix parses, the port is independent
of the per-process hash seed, hence identical on every call and across process
restarts. -/
theorem get_ports_for_adw_amended (pyhash : String → Int) (adw_id : String) :
    (get_ports_for_adw pyhash adw_id).1 = spec_deterministic_port_amended pyhash adw_id ∧
    (portPrefixParses adw_id = true →
      ∀ pyhash' : String → Int,
        (get_ports_for_adw pyhash' adw_id).1 = (get_ports_for_adw pyhash adw_id).1) := by
  constructor
  · cases hv : pyIntBase36 ((adw_id.data.take 8).filter pyIsAlnum) with
    | none => simp [get_ports_for_adw, spec_deterministic_port_amended, hv]
    | some v => simp [get_ports_for_adw, spec_deterministic_port_amended, hv]
  · intro hp pyhash'
    cases hv : pyIntBase36 ((adw_id.data.take 8).filter pyIsAlnum) with
    | none => simp [portPrefixParses, hv] at hp
    | some v => simp [get_ports_for_adw, hv]

theorem get_ports_for_adw_amended_witness :
    portPrefixParses "a1b2c3d4" = true ∧
    (get_ports_for_adw (fun _ => 7) "a1b2c3d4").1 =
      (get_ports_for_adw (fun _ => 0) "a1b2c3d4").1 :=
  ⟨by decide, (get_ports_for_adw_amended (fun _ => 0) "a1b2c3d4").2 (by decide) (fun _ => 7)⟩

theorem find_next_available_ports_spec_witness :
    9100 ≤ 9105 ∧ 9105 < 9115 ∧ (fun p : Nat => p == 9105) 9105 = true ∧
    ∃ k, k < 15 ∧
      9105 = 9100 + (((get_ports_for_adw (fun _ => 0) "0").1 - 9100) + k) % 15 ∧
      ∀ j, j < k →
        (fun p : Nat => p == 9105)
          (9100 + (((get_ports_for_adw (fun _ => 0) "0").1 - 9100) + j) % 15) = false :=
  (find_next_available_ports_spec (fun p => p == 9105) (fun _ => 0) "0").1 9105 rfl

/-! ### JSON values (`json.loads` results)

`json.loads` itself is Python library code; it enters the model as an oracle
`loads : String → Option Json` (`none` = the parse raised). -/

/-- JSON values as produced by `json.loads` (numbers restricted to the
integers appearing in this code base's transcripts). -/
inductive Json where
  | null
  | bool (b : Bool)
  | num (n : Int)
  | str (s : String)
  | arr (elems : List Json)
  | obj (fields : List (String × Json))

/-- Whether a JSON value is a Python `dict` (so that `.get` does not raise). -/
def Json.isObj : Json → Bool
  | .obj _ => true
  | _ => false

/-- Python `d.get(k)` on a dict: the value, or `None` when missing. -/
def Json.getField : Json → String → Option Json
  | .obj fields, k => fields.lookup k
  | _, _ => none

/-- Python `d.get(k, default)` on a dict. -/
def Json.getFieldD (j : Json) (k : String) (d : Json) : Json :=
  (j.getField k).getD d

/-- Python truthiness of a JSON value. -/
def Json.truthy : Json → Bool
  | .null => false
  | .bool b => b
  | .num n => n ≠ 0
  | .str s => ¬s.isEmpty
  | .arr elems => ¬elems.isEmpty
  | .obj fields => ¬fields.isEmpty

/-! ### Agent data types (`adw_modules/data_types.py`) -/

/-- Translation of `RetryCode` (data_types.py:11-18). -/
inductive RetryCode where
  | claude_code_error
  | timeout_error
  | execution_error
  | error_during_execution
  | none
deriving DecidableEq, Repr

/-- Translation of `AgentPromptResponse`: free-form output (kept as a JSON
value, since the source passes the raw `result` field through), success flag,
optional session identifier, retry classification. -/
structure AgentPromptResponse where
  output : Json
  success : Bool
  session_id : Option Json
  retry_code : RetryCode

/-- Translation of `AgentPromptRequest` (the fields read by `agent.py`). -/
structure AgentPromptRequest where
  prompt : String
  adw_id : String
  agent_name : String
  model : String
  dangerously_skip_permissions : Bool
  output_file : String
  working_dir : Option String
deriving DecidableEq, Repr

/-! ### Retry protocol (`agent.prompt_claude_code_with_retry`)

The successive calls to `prompt_claude_code` are abstracted by an oracle
`agent : Nat → AgentPromptResponse` giving the response of each attempt.  The
model returns, besides the response (`none` only if the loop body never ran),
the list of back-off delays slept in order and the number of agent calls. -/

/-- The retry classes tested by `agent.py:202-207`. -/
def retryableCodes : List RetryCode :=
  [.claude_code_error, .timeout_error, .execution_error, .error_during_execution]

/-- Delay-schedule extension (agent.py:186-187): append `last + 2` while the
list is shorter than `max_retries`; `fuel` bounds the while loop (an iteration
count of `max_retries` always suffices). -/
def extendDelaysGo (max_retries : Nat) : List Nat → Nat → List Nat
  | ds, 0 => ds
  | ds, fuel + 1 =>
    if ds.length < max_retries then
      extendDelaysGo max_retries (ds ++ [ds.getLastD 0 + 2]) fuel
    else ds

/-- The delay schedule after the extension loop of agent.py:186-187. -/
def extendDelays (ds : List Nat) (max_retries : Nat) : List Nat :=
  extendDelaysGo max_retries ds max_retries

/-- Loop of agent.py:191-213 (`for attempt in range(max_retries + 1)`),
structural on the number of remaining iterations: sleep before every attempt
but the first, call the agent, return on success or `none` classification,
retry on a retryable classification while attempts remain. -/
def retryGo (agent : Nat → AgentPromptResponse) (delays : List Nat)
    (max_retries : Nat) :
    Nat → Nat → Option AgentPromptResponse → List Nat → Nat →
      Option AgentPromptResponse × List Nat × Nat
  | 0, _, last, sleeps, calls => (last, sleeps, calls)
  | remaining + 1, attempt, _, sleeps, calls =>
    let sleeps1 := if attempt > 0 then sleeps ++ [delays.getD (attempt - 1) 0] else sleeps
    let r := agent attempt
    if r.success = true ∨ r.retry_code = RetryCode.none then (some r, sleeps1, calls + 1)
    else if r.retry_code ∈ retryableCodes then
      if attempt < max_retries then
        retryGo agent delays max_retries remaining (attempt + 1) (some r) sleeps1 (calls + 1)
      else (some r, sleeps1, calls + 1)
    else retryGo agent delays max_retries remaining (attempt + 1) (some r) sleeps1 (calls + 1)

/-- Translation of `prompt_claude_code_with_retry` (agent.py:177-213); returns
`(response, slept delays, number of agent invocations)`. -/
def prompt_claude_code_with_retry (agent : Nat → AgentPromptResponse)
    (max_retries : Nat := 3) (retry_delays : Option (List Nat) := Option.none) :
    Option AgentPromptResponse × List Nat × Nat :=
  let ds := retry_delays.getD [1, 3, 5]
  let ds := extendDelays ds max_retries
  retryGo agent ds max_retries (max_retries + 1) 0 Option.none [] 0

/-- A failed response with the `claude_code_error` classification. -/
def demoFailCC : AgentPromptResponse :=
  { output := .str "Claude Code error: boom", success := false,
    session_id := Option.none, retry_code := .claude_code_error }

/-- A successful response. -/
def demoOk : AgentPromptResponse :=
  { output := .str "done", success := true,
    session_id := some (.str "sess"), retry_code := .none }

/-- An agent failing with `claude_code_error` on the first two attempts and
succeeding on the third. -/
def demoAgent3 : Nat → AgentPromptResponse :=
  fun n => if n < 2 then demoFailCC else demoOk

/-- Claim C3, counterexample: in the two-failures-then-success scenario with
`max_retries = 3`, the invoker sleeps the first and second entries `[1, 3]` of
the default delay schedule, not the second and third entries `[3, 5]` the
claim states. -/
theorem prompt_claude_code_with_retry_counterexample :
    prompt_claude_code_with_retry demoAgent3 3 Option.none = (some demoOk, [1, 3], 3) ∧
    ([1, 3] : List Nat) ≠ [3, 5] := by
  exact ⟨rfl, by decide⟩

/-- Claim C3 (amended): against an agent whose first two invocations fail with
retry code `claude_code_error` and whose third succeeds, `max_retries = 3`
returns the successful third response after exactly three invocations and
sleeps exactly twice, before the second and third attempts, using the first
and second entries of the default delay schedule `[1, 3, 5]`. -/
theorem prompt_claude_code_with_retry_two_failures (agent : Nat → AgentPromptResponse)
    (h0s : (agent 0).success = false) (h0c : (agent 0).retry_code = .claude_code_error)
    (h1s : (agent 1).success = false) (h1c : (agent 1).retry_code = .claude_code_error)
    (h2s : (agent 2).success = true) :
    prompt_claude_code_with_retry agent 3 Option.none = (some (agent 2), [1, 3], 3) := by
  have hne : RetryCode.claude_code_error ≠ RetryCode.none := by decide
  simp only [prompt_claude_code_with_retry, extendDelays, extendDelaysGo, retryGo,
    h0s, h0c, h1s, h1c, h2s]
  simp [retryableCodes, hne]

theorem prompt_claude_code_with_retry_two_failures_witness :
    prompt_claude_code_with_retry demoAgent3 3 Option.none = (some (demoAgent3 2), [1, 3], 3) :=
  prompt_claude_code_with_retry_two_failures demoAgent3 rfl rfl rfl rfl rfl

/-- Claim C4: whatever `max_retries` is, a first response classified `none` is
returned immediately: one agent invocation, no sleep. -/
theorem prompt_claude_code_with_retry_none_short_circuit
    (agent : Nat → AgentPromptResponse) (max_retries : Nat)
    (h : (agent 0).retry_code = RetryCode.none) :
    prompt_claude_code_with_retry agent max_retries Option.none =
      (some (agent 0), [], 1) := by
  simp [prompt_claude_code_with_retry, retryGo, h]

theorem prompt_claude_code_with_retry_none_short_circuit_witness :
    prompt_claude_code_with_retry (fun _ => demoOk) 5 Option.none = (some demoOk, [], 1) :=
  prompt_claude_code_with_retry_none_short_circuit (fun _ => demoOk) 5 rfl

/-! ### Output truncation (`agent.truncate_output`) -/

/-- Default truncation suffix of `truncate_output`. -/
def defaultSuffix : String := "... (truncated)"

/-- The literal `'\x7b"type":'` tested by agent.py:74. -/
def jsonlHead : String := "\x7b\"type\":"

/-- The literal `'\n\x7b"type":'` tested by agent.py:74. -/
def jsonlMark : String := "\n\x7b\"type\":"

/-- Condition of agent.py:74: the output looks like a raw JSONL transcript. -/
def jsonlCond (output : String) : Bool :=
  jsonlHead.data.isPrefixOf output.data && pyContains output jsonlMark

/-- The `"type"` tag of a record when it is a string, for the `==` string
comparisons of agent.py:78,83. -/
def Json.typeTag (j : Json) : Option String :=
  match j.getField "type" with
  | some (.str t) => some t
  | _ => Option.none

/-- One iteration of the reverse line scan of agent.py:76-90: the string to
re-truncate extracted from a line, or `none` when the line is skipped (parse
failure, non-dict record, wrong type tag, falsy payload, or an
`AttributeError` swallowed by the bare `except`). -/
def jsonlScanLine (loads : String → Option Json) (line : String) : Option String :=
  match loads line with
  | Option.none => Option.none
  | some data =>
    if data.isObj then
      if data.typeTag = some "result" then
        let result := data.getFieldD "result" (.str "")
        if result.truthy then
          match result with
          | .str s => some s
          | _ => Option.none
        else Option.none
      else if data.typeTag = some "assistant"
          ∧ (data.getFieldD "message" .null).truthy then
        match data.getField "message" with
        | some (.obj mfields) =>
          match (Json.obj mfields).getFieldD "content" (.arr []) with
          | .arr (c0 :: _) =>
            if c0.isObj then
              let text := c0.getFieldD "text" (.str "")
              if text.truthy then
                match text with
                | .str s => some s
                | _ => Option.none
              else Option.none
            else Option.none
          | _ => Option.none
        | _ => Option.none
      else Option.none
    else Option.none

/-- Translation of `truncate_output` (agent.py:70-105).  `fuel` bounds the
recursion through extracted JSONL payloads (no iteration is needed outside the
JSONL branch); all uses in this code base have `max_length` well above the
suffix length, so the window indices are the nonnegative numbers of the
source. -/
def truncate_output (loads : String → Option Json) :
    Nat → String → Nat → String → String
  | fuel, output, max_length, suffix =>
    if jsonlCond output then
      let lines := (pyStrip output).split (fun c => c = '\n')
      match fuel with
      | 0 => output
      | fuel' + 1 =>
        match lines.reverse.findSome? (jsonlScanLine loads) with
        | some s => truncate_output loads fuel' s max_length suffix
        | Option.none =>
            "[JSONL output with " ++ toString lines.length ++ " messages]" ++ suffix
    else if output.length ≤ max_length then output
    else
      let truncate_at := max_length - suffix.length
      let newline_pos := pyRfind output '\n' (truncate_at - 50) truncate_at
      if newline_pos > 0 then pyTake output newline_pos.toNat ++ suffix
      else
        let space_pos := pyRfind output ' ' (truncate_at - 20) truncate_at
        if space_pos > 0 then pyTake output space_pos.toNat ++ suffix
        else pyTake output truncate_at ++ suffix

theorem pyRfindGo_succ (l : List Char) (c : Char) (start k : Nat) :
    pyRfindGo l c start (k + 1) =
      if l.get? (start + k) = some c then ((start + k : Nat) : Int)
      else pyRfindGo l c start k := rfl

theorem pyRfindGo_neg_iff (l : List Char) (c : Char) (start : Nat) :
    ∀ k, pyRfindGo l c start k = -1 ↔
      ∀ j, start ≤ j → j < start + k → l.get? j ≠ some c := by
  intro k
  induction k with
  | zero =>
    constructor
    · intro _ j hj1 hj2; omega
    · intro _; rfl
  | succ k ih =>
    rw [pyRfindGo_succ]
    by_cases hc : l.get? (start + k) = some c
    · rw [if_pos hc]
      constructor
      · intro h; exact absurd h (by omega)
      · intro h; exact absurd hc (h (start + k) (by omega) (by omega))
    · rw [if_neg hc, ih]
      constructor
      · intro h j hj1 hj2
        by_cases hjk : j = start + k
        · rw [hjk]; exact hc
        · exact h j hj1 (by omega)
      · intro h j hj1 hj2
        exact h j hj1 (by omega)

theorem pyRfindGo_coe (l : List Char) (c : Char) (start : Nat) :
    ∀ k (i : Nat), pyRfindGo l c start k = (i : Int) →
      start ≤ i ∧ i < start + k ∧ l.get? i = some c ∧
        ∀ j, i < j → j < start + k → l.get? j ≠ some c := by
  intro k
  induction k with
  | zero =>
    intro i h
    exact absurd h (by simp [pyRfindGo])
  | succ k ih =>
    intro i h
    rw [pyRfindGo_succ] at h
    by_cases hc : l.get? (start + k) = some c
    · rw [if_pos hc] at h
      have hi : i = start + k := by omega
      subst hi
      exact ⟨by omega, by omega, hc, fun j hj1 hj2 => by omega⟩
    · rw [if_neg hc] at h
      obtain ⟨h1, h2, h3, h4⟩ := ih i h
      refine ⟨h1, by omega, h3, fun j hj1 hj2 => ?_⟩
      by_cases hjk : j = start + k
      · rw [hjk]; exact hc
      · exact h4 j hj1 (by omega)

theorem pyRfindGo_cases (l : List Char) (c : Char) (start : Nat) :
    ∀ k, pyRfindGo l c start k = -1 ∨ ∃ i : Nat, pyRfindGo l c start k = (i : Int) := by
  intro k
  induction k with
  | zero => exact Or.inl rfl
  | succ k ih =>
    rw [pyRfindGo_succ]
    by_cases hc : l.get? (start + k) = some c
    · exact Or.inr ⟨start + k, by rw [if_pos hc]⟩
    · rw [if_neg hc]; exact ih

theorem data_append (a b : String) : (a ++ b).data = a.data ++ b.data := by
  cases a; cases b; rfl

theorem length_append_str (a b : String) : (a ++ b).length = a.length + b.length := by
  show (a ++ b).data.length = a.data.length + b.data.length
  rw [data_append, List.length_append]

theorem suffix_append_data (a b : String) : ∃ t : List Char, (a ++ b).data = t ++ b.data :=
  ⟨a.data, data_append a b⟩

/-- Claim C6: truncating any 2,000-character plain (non-JSONL-looking) string
at `max_length = 500` with the default suffix yields a result of length at
most 500 ending in the truncation suffix; the text is cut exactly at the last
newline in the lookback window `[435, 485)` when one exists, else at the last
space in `[465, 485)`, else hard-cut at 485. -/
theorem truncate_output_plain_2000 (loads : String → Option Json) (fuel : Nat)
    (output : String) (h2000 : output.length = 2000) (hplain : jsonlCond output = false) :
    (truncate_output loads fuel output 500 defaultSuffix).length ≤ 500 ∧
    (∃ t : List Char,
      (truncate_output loads fuel output 500 defaultSuffix).data = t ++ defaultSuffix.data) ∧
    (∀ i : Nat, 435 ≤ i → i < 485 → output.data.get? i = some '\n' →
      (∀ j, i < j → j < 485 → output.data.get? j ≠ some '\n') →
      truncate_output loads fuel output 500 defaultSuffix = pyTake output i ++ defaultSuffix) ∧
    ((∀ j, 435 ≤ j → j < 485 → output.data.get? j ≠ some '\n') →
      ∀ i : Nat, 465 ≤ i → i < 485 → output.data.get? i = some ' ' →
      (∀ j, i < j → j < 485 → output.data.get? j ≠ some ' ') →
      truncate_output loads fuel output 500 defaultSuffix = pyTake output i ++ defaultSuffix) ∧
    ((∀ j, 435 ≤ j → j < 485 → output.data.get? j ≠ some '\n') →
      (∀ j, 465 ≤ j → j < 485 → output.data.get? j ≠ some ' ') →
      truncate_output loads fuel output 500 defaultSuffix = pyTake output 485 ++ defaultSuffix) := by
  have hdl : output.data.length = 2000 := h2000
  have hsuflen : defaultSuffix.length = 15 := rfl
  have hnotle : ¬ (output.length ≤ 500) := by omega
  have heq : truncate_output loads fuel output 500 defaultSuffix =
      (if pyRfind output '\n' 435 485 > 0 then
        pyTake output (pyRfind output '\n' 435 485).toNat ++ defaultSuffix
      else if pyRfind output ' ' 465 485 > 0 then
        pyTake output (pyRfind output ' ' 465 485).toNat ++ defaultSuffix
      else pyTake output 485 ++ defaultSuffix) := by
    rw [truncate_output]
    rw [if_neg (by rw [hplain]; exact Bool.false_ne_true)]
    rw [if_neg hnotle]
    norm_num [hsuflen]
  have hkn : min 485 output.data.length - 435 = 50 := by omega
  have hks : min 485 output.data.length - 465 = 20 := by omega
  have hrn : pyRfind output '\n' 435 485 = pyRfindGo output.data '\n' 435 50 := by
    unfold pyRfind; rw [hkn]
  have hrs : pyRfind output ' ' 465 485 = pyRfindGo output.data ' ' 465 20 := by
    unfold pyRfind; rw [hks]
  -- shape of the result in each of the three branches
  have hlen_take : ∀ m : Nat, m ≤ 485 →
      (pyTake output m ++ defaultSuffix).length ≤ 500 := by
    intro m hm
    rw [length_append_str, hsuflen]
    have : (pyTake output m).length = min m 2000 := by
      show (output.data.take m).length = min m 2000
      rw [List.length_take, hdl]
    omega
  have hsuffix_any : ∀ m : Nat,
      ∃ t : List Char, (pyTake output m ++ defaultSuffix).data = t ++ defaultSuffix.data :=
    fun m => suffix_append_data (pyTake output m) defaultSuffix
  have hshape : ∃ m : Nat, m ≤ 485 ∧
      truncate_output loads fuel output 500 defaultSuffix = pyTake output m ++ defaultSuffix := by
    rw [heq]
    rcases pyRfindGo_cases output.data '\n' 435 50 with hneg | ⟨i, hpos⟩
    · rcases pyRfindGo_cases output.data ' ' 465 20 with hneg2 | ⟨i2, hpos2⟩
      · refine ⟨485, le_refl _, ?_⟩
        rw [if_neg (by rw [hrn, hneg]; decide), if_neg (by rw [hrs, hneg2]; decide)]
      · obtain ⟨hi1, hi2, _, _⟩ := pyRfindGo_coe output.data ' ' 465 20 i2 hpos2
        refine ⟨i2, by omega, ?_⟩
        rw [if_neg (by rw [hrn, hneg]; decide),
          if_pos (by rw [hrs, hpos2]; exact_mod_cast by omega)]
        rw [hrs, hpos2, Int.toNat_natCast]
    · obtain ⟨hi1, hi2, _, _⟩ := pyRfindGo_coe output.data '\n' 435 50 i hpos
      refine ⟨i, by omega, ?_⟩
      rw [if_pos (by rw [hrn, hpos]; exact_mod_cast by omega)]
      rw [hrn, hpos, Int.toNat_natCast]
  obtain ⟨m, hm, hshape_eq⟩ := hshape
  refine ⟨by rw [hshape_eq]; exact hlen_take m hm, by rw [hshape_eq]; exact hsuffix_any m, ?_, ?_, ?_⟩
  · -- newline case
    intro i hi1 hi2 hic hmax
    have hpos : pyRfindGo output.data '\n' 435 50 = (i : Int) := by
      rcases pyRfindGo_cases output.data '\n' 435 50 with hneg | ⟨i', hpos'⟩
      · exact absurd hic ((pyRfindGo_neg_iff output.data '\n' 435 50).mp hneg i hi1 (by omega))
      · obtain ⟨h1, h2, h3, h4⟩ := pyRfindGo_coe output.data '\n' 435 50 i' hpos'
        have : i = i' := by
          rcases Nat.lt_trichotomy i i' with hlt | heq' | hgt
          · exact absurd h3 (hmax i' hlt (by omega))
          · exact heq'
          · exact absurd hic (h4 i hgt (by omega))
        rw [this]; exact hpos'
    rw [heq, if_pos (by rw [hrn, hpos]; exact_mod_cast by omega)]
    rw [hrn, hpos, Int.toNat_natCast]
  · -- space case
    intro hno_nl i hi1 hi2 hic hmax
    have hneg : pyRfindGo output.data '\n' 435 50 = -1 :=
      (pyRfindGo_neg_iff output.data '\n' 435 50).mpr (fun j hj1 hj2 => hno_nl j hj1 (by omega))
    have hpos : pyRfindGo output.data ' ' 465 20 = (i : Int) := by
      rcases pyRfindGo_cases output.data ' ' 465 20 with hneg2 | ⟨i', hpos'⟩
      · exact absurd hic ((pyRfindGo_neg_iff output.data ' ' 465 20).mp hneg2 i hi1 (by omega))
      · obtain ⟨h1, h2, h3, h4⟩ := pyRfindGo_coe output.data ' ' 465 20 i' hpos'
        have : i = i' := by
          rcases Nat.lt_trichotomy i i' with hlt | heq' | hgt
          · exact absurd h3 (hmax i' hlt (by omega))
          · exact heq'
          · exact absurd hic (h4 i hgt (by omega))
        rw [this]; exact hpos'
    rw [heq, if_neg (by rw [hrn, hneg]; decide),
      if_pos (by rw [hrs, hpos]; exact_mod_cast by omega)]
    rw [hrs, hpos, Int.toNat_natCast]
  · -- hard-cut case
    intro hno_nl hno_sp
    have hneg : pyRfindGo output.data '\n' 435 50 = -1 :=
      (pyRfindGo_neg_iff output.data '\n' 435 50).mpr (fun j hj1 hj2 => hno_nl j hj1 (by omega))
    have hneg2 : pyRfindGo output.data ' ' 465 20 = -1 :=
      (pyRfindGo_neg_iff output.data ' ' 465 20).mpr (fun j hj1 hj2 => hno_sp j hj1 (by omega))
    rw [heq, if_neg (by rw [hrn, hneg]; decide), if_neg (by rw [hrs, hneg2]; decide)]

theorem truncate_output_plain_2000_witness :
    (truncate_output (fun _ => Option.none) 0 ⟨List.replicate 2000 'a'⟩ 500
      defaultSuffix).length ≤ 500 ∧
    ∃ t : List Char,
      (truncate_output (fun _ => Option.none) 0 ⟨List.replicate 2000 'a'⟩ 500
        defaultSuffix).data = t ++ defaultSuffix.data :=
  ⟨(truncate_output_plain_2000 (fun _ => Option.none) 0 ⟨List.replicate 2000 'a'⟩ rfl rfl).1,
    (truncate_output_plain_2000 (fun _ => Option.none) 0 ⟨List.replicate 2000 'a'⟩ rfl rfl).2.1⟩

/-! ### JSONL transcript parsing (`agent.parse_jsonl_output`)

The output file is modelled as `Option (List String)`: `none` when opening or
reading it raises, otherwise its list of lines. -/

/-- The list comprehension of agent.py:129: parse every retained line,
all-or-nothing (a raising `json.loads` aborts the whole comprehension). -/
def traverseLoads (loads : String → Option Json) : List String → Option (List Json)
  | [] => some []
  | l :: rest =>
    match loads l, traverseLoads loads rest with
    | some j, some js => some (j :: js)
    | _, _ => Option.none

/-- Reverse scan of agent.py:132-135 over the already-reversed message list:
stop at the first record whose `"type"` is `"result"`; calling `.get` on a
non-dict record raises `AttributeError` (modelled as `.error ()`), which the
enclosing `except` of agent.py:138 turns into the empty answer. -/
def scanResult : List Json → Except Unit (Option Json)
  | [] => .ok Option.none
  | m :: rest =>
    if m.isObj then
      if m.typeTag = some "result" then .ok (some m)
      else scanResult rest
    else .error ()

/-- Translation of `parse_jsonl_output` (agent.py:123-139): all parsed
messages plus the last `"result"` record, or `([], none)` when anything along
the way raises. -/
def parse_jsonl_output (loads : String → Option Json) (file : Option (List String)) :
    List Json × Option Json :=
  match file with
  | Option.none => ([], Option.none)
  | some lines =>
    match traverseLoads loads (lines.filter (fun l => ¬ pyIsBlank l)) with
    | Option.none => ([], Option.none)
    | some messages =>
      match scanResult messages.reverse with
      | .error _ => ([], Option.none)
      | .ok r => (messages, r)

/-- A record whose `"type"` field equals `"result"`. -/
def isResultRec (m : Json) : Bool :=
  m.typeTag == some "result"

/-- Rendering of the claim's description of `parse_jsonl_output`: empty
answer when the file is unreadable or a non-blank line fails to parse,
otherwise all parsed records together with the last `"result"` record. -/
def spec_parse_jsonl_output (loads : String → Option Json) (file : Option (List String)) :
    List Json × Option Json :=
  match file with
  | Option.none => ([], Option.none)
  | some lines =>
    match traverseLoads loads (lines.filter (fun l => ¬ pyIsBlank l)) with
    | Option.none => ([], Option.none)
    | some messages => (messages, messages.reverse.find? isResultRec)

/-- An oracle mapping the line `"42"` to the JSON number 42 (what
`json.loads` does). -/
def demoLoads : String → Option Json :=
  fun s => if s = "42" then some (.num 42) else Option.none

/-- Claim C10, counterexample: on a file whose single line `"42"` is valid
JSON but not an object, the reverse scan's `message.get("type")` raises
`AttributeError`, so the code returns `([], none)` instead of the parsed
record list the claim promises. -/
theorem parse_jsonl_output_counterexample :
    parse_jsonl_output demoLoads (some ["42"]) = ([], Option.none) ∧
    spec_parse_jsonl_output demoLoads (some ["42"]) = ([Json.num 42], Option.none) ∧
    parse_jsonl_output demoLoads (some ["42"]) ≠
      spec_parse_jsonl_output demoLoads (some ["42"]) := by
  refine ⟨rfl, rfl, ?_⟩
  rw [show parse_jsonl_output demoLoads (some ["42"]) = ([], Option.none) from rfl,
    show spec_parse_jsonl_output demoLoads (some ["42"]) = ([Json.num 42], Option.none) from rfl]
  intro h
  exact List.noConfusion (congrArg Prod.fst h)

theorem isResultRec_isObj (m : Json) (h : isResultRec m = true) : m.isObj = true := by
  cases m with
  | obj fields => rfl
  | null => exact absurd h (by simp [isResultRec, Json.typeTag, Json.getField])
  | bool b => exact absurd h (by simp [isResultRec, Json.typeTag, Json.getField])
  | num n => exact absurd h (by simp [isResultRec, Json.typeTag, Json.getField])
  | str s => exact absurd h (by simp [isResultRec, Json.typeTag, Json.getField])
  | arr elems => exact absurd h (by simp [isResultRec, Json.typeTag, Json.getField])

theorem scanResult_eq (ms : List Json) :
    scanResult ms =
      if (ms.takeWhile (fun m => ¬ isResultRec m)).all Json.isObj
      then .ok (ms.find? isResultRec)
      else .error () := by
  induction ms with
  | nil => rfl
  | cons m rest ih =>
    by_cases hres : isResultRec m = true
    · have hobj := isResultRec_isObj m hres
      have htag : m.typeTag = some "result" := by
        simpa [isResultRec] using hres
      simp [scanResult, hobj, htag, List.takeWhile, List.find?, hres, isResultRec]
    · have hres' : isResultRec m = false := Bool.eq_false_iff.mpr hres
      by_cases hobj : m.isObj = true
      · have htag : ¬ m.typeTag = some "result" := by
          intro hc
          exact hres (by simp [isResultRec, hc])
        simp only [scanResult, hobj, if_true, if_neg htag, ih, List.takeWhile, List.find?,
          hres', Bool.not_false, List.all_cons, hobj, Bool.true_and]
        simp [hobj]
      · have hobj' : m.isObj = false := Bool.eq_false_iff.mpr hobj
        simp [scanResult, hobj', List.takeWhile, hres', List.all_cons]

/-- Claim C10 (amended): `parse_jsonl_output` is total; it returns
`([], none)` when the file is unreadable, when any non-blank line fails to
parse as JSON, and also when the reverse scan meets a non-object record
before finding a `"result"` record (the swallowed `AttributeError`);
otherwise it returns all parsed records together with the last record whose
`"type"` field equals `"result"` (or no result record if none exists). -/
theorem parse_jsonl_output_amended (loads : String → Option Json)
    (file : Option (List String)) :
    (file = Option.none → parse_jsonl_output loads file = ([], Option.none)) ∧
    (∀ lines, file = some lines →
      (traverseLoads loads (lines.filter (fun l => ¬ pyIsBlank l)) = Option.none →
        parse_jsonl_output loads file = ([], Option.none)) ∧
      (∀ messages,
        traverseLoads loads (lines.filter (fun l => ¬ pyIsBlank l)) = some messages →
        parse_jsonl_output loads file =
          if (messages.reverse.takeWhile (fun m => ¬ isResultRec m)).all Json.isObj
          then (messages, messages.reverse.find? isResultRec)
          else ([], Option.none))) := by
  refine ⟨fun h => by rw [h]; rfl, fun lines hl => ⟨fun htr => ?_, fun messages htr => ?_⟩⟩
  · rw [hl]
    simp only [parse_jsonl_output, htr]
  · rw [hl]
    simp only [parse_jsonl_output, htr, scanResult_eq]
    by_cases hc : (messages.reverse.takeWhile (fun m => ¬ isResultRec m)).all Json.isObj = true
    · rw [if_pos hc, if_pos hc]
    · rw [if_neg hc, if_neg hc]

/-- A well-formed result record. -/
def demoResultRec : Json := .obj [("type", .str "result"), ("result", .str "ok")]

/-- An oracle mapping the line `"r"` to `demoResultRec`. -/
def demoLoadsR : String → Option Json :=
  fun s => if s = "r" then some demoResultRec else Option.none

theorem parse_jsonl_output_amended_witness :
    parse_jsonl_output demoLoadsR (some ["r"]) = ([demoResultRec], some demoResultRec) := by
  have h := ((parse_jsonl_output_amended demoLoadsR (some ["r"])).2 ["r"] rfl).2
    [demoResultRec] rfl
  rw [h]; rfl

/-! ### Agent invocation (`agent.prompt_claude_code`, `agent.save_prompt`)

The invocation's interaction with the outside world is recorded as a trace of
events; the world record carries everything the environment decides:
installation check, the subprocess (its exit code, stderr and wall-clock
duration), and the transcript file the subprocess leaves behind. -/

/-- Filesystem / process events emitted by one invocation, in order. -/
inductive AgentEvent where
  | makedirs (dir : String)
  | write_file (path : String) (content : String)
  | spawn (cmd : List String)
  | write_json (jsonl_path : String)
deriving DecidableEq, Repr

/-- Python regex `\w` (ASCII fragment). -/
def isWordChar (c : Char) : Bool :=
  c.isAlphanum || c = '_'

/-- Python `re.match(r"^(/\w+)", prompt)`: the leading slash command, when
the prompt starts with `/` followed by at least one word character. -/
def rePromptCmd (prompt : String) : Option String :=
  match prompt.data with
  | '/' :: rest =>
    let w := rest.takeWhile isWordChar
    if w.isEmpty then Option.none else some (String.mk ('/' :: w))
  | _ => Option.none

/-- Python `os.path.dirname` (posix). -/
def pyDirname (p : String) : String :=
  let r := p.data.reverse
  let head := (r.dropWhile (fun c => ¬ c = '/')).reverse
  if head.isEmpty then ""
  else if head.all (fun c => c = '/') then ⟨head⟩
  else ⟨(head.reverse.dropWhile (fun c => c = '/')).reverse⟩

/-- Python `str.lower()` (ASCII fragment). -/
def pyLower (s : String) : String :=
  ⟨s.data.map Char.toLower⟩

/-- Python `l[-n:]`. -/
def lastN (n : Nat) (l : List α) : List α :=
  l.drop (l.length - n)

/-- Translation of `save_prompt` (agent.py:157-174) as the events it
performs: nothing when the prompt carries no leading slash command, else a
`makedirs` and the write of the prompt to the per-run, per-agent,
per-command file. -/
def save_prompt (project_root prompt adw_id agent_name : String) : List AgentEvent :=
  match rePromptCmd prompt with
  | Option.none => []
  | some slash_command =>
    let command_name : String := String.mk (slash_command.data.drop 1)
    let prompt_dir := pyPathJoin (pyPathJoin (pyPathJoin
      (pyPathJoin project_root "agents") adw_id) agent_name) "prompts"
    [.makedirs prompt_dir,
     .write_file (pyPathJoin prompt_dir (command_name ++ ".txt")) prompt]

/-- Environment of one `prompt_claude_code` invocation. -/
structure AgentWorld where
  project_root : String
  claude_path : String
  installed_err : Option String
  open_output_exc : Option String
  mcp_exists : Bool
  run_returncode : Int
  run_stderr : String
  run_duration : Nat
  output_lines : Option (List String)
  output_file_exists : Bool
  loads : String → Option Json

/-- Outcome of `subprocess.run`. -/
inductive SpawnOutcome where
  | completed (returncode : Int) (stderr : String)
  | timedOut
deriving DecidableEq, Repr

/-- Python `subprocess.run`: `TimeoutExpired` is raised only when a `timeout`
argument is passed and the process outlives it; with no `timeout` the call
blocks until the process exits, however long that takes. -/
def pySubprocessRun (timeout : Option Nat) (w : AgentWorld) : SpawnOutcome :=
  match timeout with
  | some t => if w.run_duration > t then .timedOut
              else .completed w.run_returncode w.run_stderr
  | Option.none => .completed w.run_returncode w.run_stderr

/-- Command line assembled by agent.py:233-244. -/
def buildCmd (w : AgentWorld) (req : AgentPromptRequest) : List String :=
  [w.claude_path, "-p", req.prompt, "--model", req.model,
   "--output-format", "stream-json", "--verbose"]
  ++ (match req.working_dir with
      | some wd =>
        if ¬ wd.isEmpty ∧ w.mcp_exists then
          ["--mcp-config", pyPathJoin wd ".mcp.json"]
        else []
      | Option.none => [])
  ++ (if req.dangerously_skip_permissions then ["--dangerously-skip-permissions"] else [])

/-- The `"subtype"` comparison of agent.py:266-268. -/
def Json.subtypeIsEDE (rm : Json) : Bool :=
  match rm.getField "subtype" with
  | some (.str t) => t == "error_during_execution"
  | _ => false

/-- Response of agent.py:263-287 for a parsed result record: the
error-during-execution subtype is its own retryable class, otherwise success
mirrors `not is_error` and an error text above 1000 characters is truncated
to 800.  A non-string `"result"` payload (never produced by the CLI) is
passed through unmodified. -/
def resultResponse (w : AgentWorld) (fuel : Nat) (rm : Json) : AgentPromptResponse :=
  let session_id := rm.getField "session_id"
  let is_error := (rm.getFieldD "is_error" (.bool false)).truthy
  if rm.subtypeIsEDE then
    { output := .str "Error during execution: Agent encountered an error and did not return a result",
      success := false, session_id := session_id, retry_code := .error_during_execution }
  else
    let result_out : Json :=
      match rm.getFieldD "result" (.str "") with
      | .str s =>
        if is_error = true ∧ s.length > 1000 then
          .str (truncate_output w.loads fuel s 800 defaultSuffix)
        else .str s
      | other => other
    { output := result_out, success := ¬ is_error, session_id := session_id,
      retry_code := .none }

/-- The per-line fallback of agent.py:295-306: the text of the last assistant
message, when one can be extracted (each line's failures are swallowed by the
inner `except`). -/
def fallbackAssistantText (loads : String → Option Json) (line : String) : Option String :=
  match loads (pyStrip line) with
  | some data =>
    if data.isObj then
      if data.typeTag = some "assistant" ∧ (data.getFieldD "message" .null).truthy then
        match data.getField "message" with
        | some (.obj mf) =>
          match (Json.obj mf).getFieldD "content" (.arr []) with
          | .arr (c0 :: _) =>
            if c0.isObj then
              match c0.getFieldD "text" (.str "") with
              | .str t => if ¬ t.isEmpty then some t else Option.none
              | _ => Option.none
            else Option.none
          | _ => Option.none
        | _ => Option.none
      else Option.none
    else Option.none
  | Option.none => Option.none

/-- Response of agent.py:288-315 when the transcript holds no result record:
scan the last five lines in reverse for an assistant message, else the
generic "no result" diagnostic; always `success = False` with retry class
`none`. -/
def noResultResponse (w : AgentWorld) (fuel : Nat) : AgentPromptResponse :=
  let error_msg :=
    match w.output_lines with
    | Option.none => "No result message found in Claude Code output"
    | some lines =>
      if lines.isEmpty then "No result message found in Claude Code output"
      else
        let last_lines := if lines.length > 5 then lastN 5 lines else lines
        match last_lines.reverse.findSome? (fallbackAssistantText w.loads) with
        | some t => "Claude Code output: " ++ String.mk (t.data.take 500)
        | Option.none => "No result message found in Claude Code output"
  { output := .str (truncate_output w.loads fuel error_msg 800 defaultSuffix),
    success := false, session_id := Option.none, retry_code := .none }

/-- Reverse scan of agent.py:327-334 for an assistant message mentioning an
error; `.error ()` models an `AttributeError` that aborts the whole enclosing
`try` of agent.py:320-342. -/
def errScanMsgs (msgs : List Json) : Except Unit (Option String) :=
  match msgs with
  | [] => .ok Option.none
  | msg :: rest =>
    if msg.isObj then
      if msg.typeTag = some "assistant" then
        match msg.getFieldD "message" (.obj []) with
        | .obj mf =>
          match (Json.obj mf).getField "content" with
          | some content =>
            if content.truthy then
              match content with
              | .arr (c0 :: _) =>
                if c0.isObj then
                  match c0.getFieldD "text" (.str "") with
                  | .str t =>
                    if ¬ t.isEmpty ∧
                        (pyContains (pyLower t) "error" ∨ pyContains (pyLower t) "failed") then
                      .ok (some (String.mk (t.data.take 500)))
                    else errScanMsgs rest
                  | other => if other.truthy then .error () else errScanMsgs rest
                else .error ()
              | _ => errScanMsgs rest
            else errScanMsgs rest
          | Option.none => errScanMsgs rest
        | _ => .error ()
      else errScanMsgs rest
    else .error ()

/-- The diagnostic-gathering block of agent.py:319-342 for a non-zero exit:
`(error_from_jsonl, stdout_msg)`, with every exception swallowed into the
values gathered so far (an empty extracted error behaves exactly like no
error, per Python truthiness). -/
def rcNonzeroProbe (loads : String → Option Json) (output_file_exists : Bool)
    (output_lines : Option (List String)) : Option String × String :=
  if output_file_exists then
    let pr := parse_jsonl_output loads output_lines
    let em : Except Unit (Option String) :=
      match pr.2 with
      | some rm =>
        if (rm.getFieldD "is_error" (.bool false)).truthy then
          .ok (some (match rm.getFieldD "result" (.str "Unknown error") with
            | .str s => s
            | _ => "Unknown error"))
        else if ¬ pr.1.isEmpty then errScanMsgs (lastN 5 pr.1).reverse
        else .ok Option.none
      | Option.none =>
        if ¬ pr.1.isEmpty then errScanMsgs (lastN 5 pr.1).reverse
        else .ok Option.none
    match em with
    | .error _ => (Option.none, "")
    | .ok (some e) =>
      if e.isEmpty then
        -- falsy extracted error: the stdout fallback of agent.py:336-340 runs
        match output_lines with
        | some lines =>
          match lines.getLast? with
          | some ll => (Option.none, String.mk ((pyStrip ll).data.take 200))
          | Option.none => (Option.none, "")
        | Option.none => (Option.none, "")
      else (some e, "")
    | .ok Option.none =>
      match output_lines with
      | some lines =>
        match lines.getLast? with
        | some ll => (Option.none, String.mk ((pyStrip ll).data.take 200))
        | Option.none => (Option.none, "")
      | Option.none => (Option.none, "")
  else (Option.none, "")

/-- Response of agent.py:316-360 for a non-zero exit code: assemble the most
informative error text available and classify as `claude_code_error`. -/
def rcNonzeroResponse (w : AgentWorld) (fuel : Nat) (rc : Int) (stderr : String) :
    AgentPromptResponse :=
  let stderr_msg := if stderr.isEmpty then "" else pyStrip stderr
  let pr := rcNonzeroProbe w.loads w.output_file_exists w.output_lines
  let error_msg :=
    match pr.1 with
    | some e => "Claude Code error: " ++ e
    | Option.none =>
      if ¬ pr.2.isEmpty ∧ stderr_msg.isEmpty then "Claude Code error: " ++ pr.2
      else if ¬ stderr_msg.isEmpty ∧ pr.2.isEmpty then "Claude Code error: " ++ stderr_msg
      else if ¬ pr.2.isEmpty ∧ ¬ stderr_msg.isEmpty then
        "Claude Code error: " ++ stderr_msg ++ "\nStdout: " ++ pr.2
      else "Claude Code error: Command failed with exit code " ++ toString rc
  { output := .str (truncate_output w.loads fuel error_msg 800 defaultSuffix),
    success := false, session_id := Option.none, retry_code := .claude_code_error }

/-- Branches of agent.py:250-377 after the subprocess has been spawned,
returning the response and the events performed after the spawn. -/
def afterSpawn (w : AgentWorld) (fuel : Nat) (req : AgentPromptRequest) :
    AgentPromptResponse × List AgentEvent :=
  match pySubprocessRun Option.none w with
  | .timedOut =>
    ({ output := .str "Error: Claude Code command timed out after 5 minutes",
       success := false, session_id := Option.none, retry_code := .timeout_error }, [])
  | .completed rc stderr =>
    if rc = 0 then
      let pr := parse_jsonl_output w.loads w.output_lines
      (match pr.2 with
       | some rm => resultResponse w fuel rm
       | Option.none => noResultResponse w fuel,
       [.write_json req.output_file])
    else (rcNonzeroResponse w fuel rc stderr, [])

/-- Translation of `prompt_claude_code` (agent.py:216-377): the response and
the ordered trace of external events of one invocation.  Source structure:
installed check (early return), `save_prompt`, `makedirs` of the output
directory, command assembly, then inside the `try`: open the output file
(failure lands in the generic `except` as `execution_error`), run the
subprocess — with no `timeout` argument, so the `TimeoutExpired` handler of
agent.py:362-369 is reachable only through `pySubprocessRun`'s `some`-timeout
branch, never from this call — and dispatch on the exit code. -/
def prompt_claude_code (w : AgentWorld) (fuel : Nat) (req : AgentPromptRequest) :
    AgentPromptResponse × List AgentEvent :=
  match w.installed_err with
  | some e =>
    ({ output := .str e, success := false, session_id := Option.none,
       retry_code := .none }, [])
  | Option.none =>
    let ev₀ := save_prompt w.project_root req.prompt req.adw_id req.agent_name
    let output_dir := pyDirname req.output_file
    let ev₁ := ev₀ ++ (if ¬ output_dir.isEmpty then [.makedirs output_dir] else [])
    match w.open_output_exc with
    | some e =>
      ({ output := .str ("Error executing Claude Code: " ++ e), success := false,
         session_id := Option.none, retry_code := .execution_error }, ev₁)
    | Option.none =>
      let ev₂ := ev₁ ++ [.spawn (buildCmd w req)]
      let next := afterSpawn w fuel req
      (next.1, ev₂ ++ next.2)

/-- A world where everything works: the CLI is installed, the subprocess
takes 301 seconds (beyond the five-minute budget), exits 0, and leaves a
transcript with one well-formed result record. -/
def demoWorldOk : AgentWorld :=
  { project_root := "/repo", claude_path := "claude",
    installed_err := Option.none, open_output_exc := Option.none,
    mcp_exists := false, run_returncode := 0, run_stderr := "",
    run_duration := 301, output_lines := some ["r"],
    output_file_exists := true, loads := demoLoadsR }

/-- A request whose prompt is a slash command. -/
def demoRequest : AgentPromptRequest :=
  { prompt := "/implement plan.md", adw_id := "adw1", agent_name := "ops",
    model := "sonnet", dangerously_skip_permissions := true,
    output_file := "agents/adw1/ops/raw_output.jsonl", working_dir := Option.none }

/-- The same request with a prompt that carries no slash command. -/
def demoRequestPlain : AgentPromptRequest :=
  { demoRequest with prompt := "hello world" }

/-- Claim C5: the `TimeoutExpired` handler of agent.py:362-369 is dead code —
`subprocess.run` is called without a `timeout` argument, so a subprocess
running 301 seconds (over the advertised 5-minute budget) is simply waited
for, and the invocation classifies by exit status (`none`, success here),
never `timeout_error`.  Had a 300-second timeout been passed, the same world
would have timed out. -/
theorem prompt_claude_code_no_timeout_budget :
    demoWorldOk.run_duration > 300 ∧
    pySubprocessRun (some 300) demoWorldOk = SpawnOutcome.timedOut ∧
    pySubprocessRun Option.none demoWorldOk = SpawnOutcome.completed 0 "" ∧
    (prompt_claude_code demoWorldOk 0 demoRequest).1.retry_code = RetryCode.none ∧
    (prompt_claude_code demoWorldOk 0 demoRequest).1.success = true ∧
    (prompt_claude_code demoWorldOk 0 demoRequest).1.retry_code ≠ RetryCode.timeout_error := by
  refine ⟨by decide, rfl, rfl, rfl, rfl, ?_⟩
  rw [show (prompt_claude_code demoWorldOk 0 demoRequest).1.retry_code = RetryCode.none
    from rfl]
  decide

/-- Whether an event is a subprocess spawn. -/
def AgentEvent.isSpawn : AgentEvent → Bool
  | .spawn _ => true
  | _ => false

/-- Whether an event is a `save_prompt` file write (the only `write_file`
producer in this model). -/
def AgentEvent.isPromptWrite : AgentEvent → Bool
  | .write_file _ _ => true
  | _ => false

/-- Claim C9, counterexample: an invocation whose prompt does not begin with
a slash command spawns the agent subprocess without writing any prompt file
(`save_prompt` returns at agent.py:159-161 when the regex does not match). -/
theorem save_prompt_counterexample :
    (prompt_claude_code demoWorldOk 0 demoRequestPlain).2.any AgentEvent.isSpawn = true ∧
    (prompt_claude_code demoWorldOk 0 demoRequestPlain).2.any AgentEvent.isPromptWrite
      = false :=
  ⟨rfl, rfl⟩

/-- Claim C9 (amended): whenever the CLI-installed check passes and the
prompt begins with a slash command, the rendered prompt is written to the
per-run, per-agent-name, per-command prompt file, and this write precedes the
subprocess spawn in the event trace (prompts without a leading slash command
are not saved, and a failed installed check writes nothing and spawns
nothing). -/
theorem prompt_claude_code_saves_prompt_before_spawn (w : AgentWorld) (fuel : Nat)
    (req : AgentPromptRequest) (c : String)
    (hinst : w.installed_err = Option.none)
    (hcmd : rePromptCmd req.prompt = some c)
    (hopen : w.open_output_exc = Option.none) :
    ∃ i j, i < j ∧
      (prompt_claude_code w fuel req).2.get? i = some (AgentEvent.write_file
        (pyPathJoin (pyPathJoin (pyPathJoin (pyPathJoin
          (pyPathJoin w.project_root "agents") req.adw_id) req.agent_name) "prompts")
          (String.mk (c.data.drop 1) ++ ".txt")) req.prompt) ∧
      (prompt_claude_code w fuel req).2.get? j = some (.spawn (buildCmd w req)) := by
  have hev : (prompt_claude_code w fuel req).2 =
      (([AgentEvent.makedirs (pyPathJoin (pyPathJoin (pyPathJoin
          (pyPathJoin w.project_root "agents") req.adw_id) req.agent_name) "prompts"),
        AgentEvent.write_file (pyPathJoin (pyPathJoin (pyPathJoin (pyPathJoin
          (pyPathJoin w.project_root "agents") req.adw_id) req.agent_name) "prompts")
          (String.mk (c.data.drop 1) ++ ".txt")) req.prompt]
        ++ (if ¬ (pyDirname req.output_file).isEmpty then
              [AgentEvent.makedirs (pyDirname req.output_file)] else [])
        ++ [AgentEvent.spawn (buildCmd w req)]) ++ (afterSpawn w fuel req).2) := by
    simp only [prompt_claude_code, hinst, hopen, save_prompt, hcmd]
  by_cases hd : (pyDirname req.output_file).isEmpty
  · refine ⟨1, 2, by omega, ?_, ?_⟩ <;>
      simp [hev, hd]
  · refine ⟨1, 3, by omega, ?_, ?_⟩ <;>
      simp [hev, hd]

theorem prompt_claude_code_saves_prompt_before_spawn_witness :
    ∃ i j, i < j ∧
      (prompt_claude_code demoWorldOk 0 demoRequest).2.get? i = some (AgentEvent.write_file
        (pyPathJoin (pyPathJoin (pyPathJoin (pyPathJoin
          (pyPathJoin demoWorldOk.project_root "agents") demoRequest.adw_id)
          demoRequest.agent_name) "prompts")
          (String.mk (("/implement" : String).data.drop 1) ++ ".txt")) demoRequest.prompt) ∧
      (prompt_claude_code demoWorldOk 0 demoRequest).2.get? j =
        some (.spawn (buildCmd demoWorldOk demoRequest)) :=
  prompt_claude_code_saves_prompt_before_spawn demoWorldOk 0 demoRequest "/implement"
    rfl rfl rfl

/-! ### Worktree lifecycle (`worktree_ops.validate_worktree_path`,
`worktree_ops.create_worktree`)

The filesystem and the git toolchain are abstracted as a record of operations
over an opaque world state `σ`: read-only queries are pure functions of the
state, mutating git commands return the next state; `.error` models a raised
exception, `.ok` carries the completed process's exit data. -/

/-- External operations used by the worktree code. -/
structure GitOps (σ : Type) where
  project_root : String
  path_exists : σ → String → Bool
  isdir : σ → String → Bool
  worktree_list : σ → Except String (Int × String)
  branch_list : σ → String → Except String (Int × String)
  worktree_remove : σ → String → (Except String (Int × String)) × σ
  rmtree : σ → String → (Except String Unit) × σ
  makedirs : σ → String → σ
  worktree_add : σ → String → String → Bool → (Except String (Int × String × String)) × σ

/-- Translation of `validate_worktree_path` (worktree_ops.py:104-144): the
four cascading checks, each failure with its own reason string; a failing or
raising `git worktree list` is its own failure. -/
def validate_worktree_path (g : GitOps σ) (s : σ) (worktree_path : String) :
    Bool × Option String :=
  if ¬ g.path_exists s worktree_path then
    (false, some ("Worktree path does not exist: " ++ worktree_path))
  else if ¬ g.isdir s worktree_path then
    (false, some ("Worktree path is not a directory: " ++ worktree_path))
  else if ¬ g.path_exists s (pyPathJoin worktree_path ".git") then
    (false, some ("Worktree is not a git repository: " ++ worktree_path))
  else
    match g.worktree_list s with
    | .error e => (false, some ("Error validating worktree: " ++ e))
    | .ok (rc, out) =>
      if rc ≠ 0 then (false, some "Failed to list worktrees")
      else if ¬ pyContains out worktree_path then
        (false, some ("Worktree not registered in git: " ++ worktree_path))
      else (true, Option.none)

/-- Actions performed by `create_worktree`, in order. -/
inductive WtAction where
  | remove_worktree (path : String)
  | rmtree (path : String)
  | makedirs (dir : String)
  | branch_list (branch : String)
  | add_worktree (path branch : String) (new_branch : Bool)
deriving DecidableEq, Repr

/-- Actions that mutate the worktree (removal or recreation). -/
def WtAction.isDestructive : WtAction → Bool
  | .remove_worktree _ => true
  | .rmtree _ => true
  | .add_worktree _ _ _ => true
  | _ => false

/-- Removal of an existing-but-invalid worktree (worktree_ops.py:41-55):
`git worktree remove --force`, with `shutil.rmtree` as fallback when it exits
non-zero; every exception is logged and execution continues. -/
def removeInvalid (g : GitOps σ) (s : σ) (worktree_path : String) : σ × List WtAction :=
  if g.path_exists s worktree_path then
    match g.worktree_remove s worktree_path with
    | (.error _, s₁) => (s₁, [.remove_worktree worktree_path])
    | (.ok (rc, _), s₁) =>
      if rc ≠ 0 then
        ((g.rmtree s₁ worktree_path).2,
          [.remove_worktree worktree_path, .rmtree worktree_path])
      else (s₁, [.remove_worktree worktree_path])
  else (s, [])

/-- Creation proper (worktree_ops.py:57-101): ensure the `trees` directory,
test whether the branch exists (by the truthiness of `git branch --list`'s
stdout; its exit code is ignored), attach to it or create it fresh with `-b`;
a non-zero exit surfaces the stripped stderr (or "Unknown error"), an
exception surfaces its text. -/
def createFresh (g : GitOps σ) (s₁ : σ) (worktree_path branch_name : String) :
    (Option String × Option String) × σ × List WtAction :=
  let trees_dir := pyPathJoin g.project_root "trees"
  let s₂ := g.makedirs s₁ trees_dir
  match g.branch_list s₂ branch_name with
  | .error e =>
    ((Option.none, some ("Exception creating worktree: " ++ e)), s₂,
      [.makedirs trees_dir, .branch_list branch_name])
  | .ok (_, out) =>
    let new_branch := (pyStrip out).isEmpty
    match g.worktree_add s₂ worktree_path branch_name new_branch with
    | (.error e, s₃) =>
      ((Option.none, some ("Exception creating worktree: " ++ e)), s₃,
        [.makedirs trees_dir, .branch_list branch_name,
         .add_worktree worktree_path branch_name new_branch])
    | (.ok (rc, _, stderr), s₃) =>
      if rc ≠ 0 then
        ((Option.none, some (if ¬ stderr.isEmpty then pyStrip stderr else "Unknown error")),
          s₃, [.makedirs trees_dir, .branch_list branch_name,
            .add_worktree worktree_path branch_name new_branch])
      else
        ((some worktree_path, Option.none), s₃,
          [.makedirs trees_dir, .branch_list branch_name,
           .add_worktree worktree_path branch_name new_branch])

/-- Translation of `create_worktree` (worktree_ops.py:17-101): reuse a valid
existing worktree as-is; remove an invalid one and recreate; create fresh
otherwise.  Returns `((worktree_path?, error?), final state, actions)`. -/
def create_worktree (g : GitOps σ) (s : σ) (adw_id branch_name : String) :
    (Option String × Option String) × σ × List WtAction :=
  let worktree_path := pyPathJoin (pyPathJoin g.project_root "trees") adw_id
  if g.path_exists s worktree_path ∧ (validate_worktree_path g s worktree_path).1 then
    ((some worktree_path, Option.none), s, [])
  else
    let rm := removeInvalid g s worktree_path
    let res := createFresh g rm.1 worktree_path branch_name
    (res.1, res.2.1, rm.2 ++ res.2.2)

/-- Claim C7: under an answering registration listing (exit 0, no exception),
validity is exactly the conjunction of the four conditions, and each failure
carries a non-empty reason specific to the first failed condition. -/
theorem prefix_append_ne_empty (a b : String) (ha : 0 < a.length) : ¬ a ++ b = "" := by
  intro h
  have hl := congrArg String.length h
  rw [length_append_str] at hl
  have h0 : ("" : String).length = 0 := rfl
  omega

/-- Claim C7: under an answering registration listing (exit 0, no exception),
validity is exactly the conjunction of the four conditions, and each failure
carries a non-empty reason specific to the first failed condition. -/
theorem validate_worktree_path_spec (σ : Type) (g : GitOps σ) (s : σ) (p : String)
    (lout : String) (hlist : g.worktree_list s = .ok (0, lout)) :
    ((validate_worktree_path g s p).1 = true ↔
      g.path_exists s p = true ∧ g.isdir s p = true ∧
      g.path_exists s (pyPathJoin p ".git") = true ∧ pyContains lout p = true) ∧
    ((validate_worktree_path g s p).1 = false →
      ∃ r, (validate_worktree_path g s p).2 = some r ∧ r ≠ "") ∧
    (g.path_exists s p = false →
      (validate_worktree_path g s p).2 = some ("Worktree path does not exist: " ++ p)) ∧
    (g.path_exists s p = true → g.isdir s p = false →
      (validate_worktree_path g s p).2 = some ("Worktree path is not a directory: " ++ p)) ∧
    (g.path_exists s p = true → g.isdir s p = true →
      g.path_exists s (pyPathJoin p ".git") = false →
      (validate_worktree_path g s p).2 = some ("Worktree is not a git repository: " ++ p)) ∧
    (g.path_exists s p = true → g.isdir s p = true →
      g.path_exists s (pyPathJoin p ".git") = true → pyContains lout p = false →
      (validate_worktree_path g s p).2 = some ("Worktree not registered in git: " ++ p)) := by
  by_cases h1 : g.path_exists s p = true
  · by_cases h2 : g.isdir s p = true
    · by_cases h3 : g.path_exists s (pyPathJoin p ".git") = true
      · by_cases h4 : pyContains lout p = true
        · have hv : validate_worktree_path g s p = (true, Option.none) := by
            simp [validate_worktree_path, h1, h2, h3, h4, hlist]
          refine ⟨by simp [hv, h1, h2, h3, h4], by simp [hv], by simp [h1], ?_, ?_, ?_⟩ <;>
            simp_all
        · have h4' : pyContains lout p = false := Bool.eq_false_iff.mpr h4
          have hv : validate_worktree_path g s p =
              (false, some ("Worktree not registered in git: " ++ p)) := by
            simp [validate_worktree_path, h1, h2, h3, h4', hlist]
          refine ⟨by simp [hv, h4'], ?_, by simp [h1], by simp_all, by simp_all, by simp [hv]⟩
          intro _
          exact ⟨"Worktree not registered in git: " ++ p, by simp [hv],
            prefix_append_ne_empty "Worktree not registered in git: " p (by decide)⟩
      · have h3' : g.path_exists s (pyPathJoin p ".git") = false := Bool.eq_false_iff.mpr h3
        have hv : validate_worktree_path g s p =
            (false, some ("Worktree is not a git repository: " ++ p)) := by
          simp [validate_worktree_path, h1, h2, h3']
        refine ⟨by simp [hv, h3'], ?_, by simp [h1], by simp_all, by simp [hv], by simp_all⟩
        intro _
        exact ⟨"Worktree is not a git repository: " ++ p, by simp [hv],
          prefix_append_ne_empty "Worktree is not a git repository: " p (by decide)⟩
    · have h2' : g.isdir s p = false := Bool.eq_false_iff.mpr h2
      have hv : validate_worktree_path g s p =
          (false, some ("Worktree path is not a directory: " ++ p)) := by
        simp [validate_worktree_path, h1, h2']
      refine ⟨by simp [hv, h2'], ?_, by simp [h1], by simp [hv], by simp_all, by simp_all⟩
      intro _
      exact ⟨"Worktree path is not a directory: " ++ p, by simp [hv],
        prefix_append_ne_empty "Worktree path is not a directory: " p (by decide)⟩
  · have h1' : g.path_exists s p = false := Bool.eq_false_iff.mpr h1
    have hv : validate_worktree_path g s p =
        (false, some ("Worktree path does not exist: " ++ p)) := by
      simp [validate_worktree_path, h1']
    refine ⟨by simp [hv, h1'], ?_, by simp [hv], by simp_all, by simp_all, by simp_all⟩
    intro _
    exact ⟨"Worktree path does not exist: " ++ p, by simp [hv],
      prefix_append_ne_empty "Worktree path does not exist: " p (by decide)⟩

/-- A world over `Unit` where the single worktree path exists, is a
directory, has a `.git` marker and is registered. -/
def demoValidateOps : GitOps Unit :=
  { project_root := "/repo",
    path_exists := fun _ _ => true,
    isdir := fun _ _ => true,
    worktree_list := fun _ => .ok (0, "/repo/trees/adw1  abc123 [feat]"),
    branch_list := fun _ _ => .ok (0, ""),
    worktree_remove := fun s _ => (.ok (0, ""), s),
    rmtree := fun s _ => (.ok (), s),
    makedirs := fun s _ => s,
    worktree_add := fun s _ _ _ => (.ok (0, "", ""), s) }

theorem validate_worktree_path_spec_witness :
    (validate_worktree_path demoValidateOps () "/repo/trees/adw1").1 = true ↔
      demoValidateOps.path_exists () "/repo/trees/adw1" = true ∧
      demoValidateOps.isdir () "/repo/trees/adw1" = true ∧
      demoValidateOps.path_exists () (pyPathJoin "/repo/trees/adw1" ".git") = true ∧
      pyContains "/repo/trees/adw1  abc123 [feat]" "/repo/trees/adw1" = true :=
  (validate_worktree_path_spec Unit demoValidateOps () "/repo/trees/adw1"
    "/repo/trees/adw1  abc123 [feat]" rfl).1

/-- Sanity of the git toolchain, the "no external interference" premise: a
`git worktree add` that exits 0 leaves the target path existing, a directory,
with a `.git` marker, and registered in the worktree listing. -/
def GitSane {σ : Type} (g : GitOps σ) : Prop :=
  ∀ s s' p br nb rc out stderr,
    g.worktree_add s p br nb = (.ok (rc, out, stderr), s') → rc = 0 →
    g.path_exists s' p = true ∧ g.isdir s' p = true ∧
    g.path_exists s' (pyPathJoin p ".git") = true ∧
    ∃ lout, g.worktree_list s' = .ok (0, lout) ∧ pyContains lout p = true

theorem createFresh_ok {σ : Type} (g : GitOps σ) (s₁ : σ) (wp bn p : String)
    (h : (createFresh g s₁ wp bn).1 = (some p, Option.none)) :
    p = wp ∧ ∃ nb out stderr,
      g.worktree_add (g.makedirs s₁ (pyPathJoin g.project_root "trees")) wp bn nb =
        (.ok (0, out, stderr), (createFresh g s₁ wp bn).2.1) := by
  rcases hbl : g.branch_list (g.makedirs s₁ (pyPathJoin g.project_root "trees")) bn with
    e | ⟨rc1, out1⟩
  · exfalso
    simp only [createFresh, hbl] at h
    exact Option.noConfusion (congrArg Prod.fst h)
  · rcases hadd : g.worktree_add (g.makedirs s₁ (pyPathJoin g.project_root "trees")) wp bn
        ((pyStrip out1).isEmpty) with ⟨res, s₃⟩
    cases res with
    | error er =>
      exfalso
      simp only [createFresh, hbl, hadd] at h
      exact Option.noConfusion (congrArg Prod.fst h)
    | ok v =>
      obtain ⟨rc, out2, stderr⟩ := v
      by_cases hrc : rc = 0
      · subst hrc
        have hproj : (createFresh g s₁ wp bn).2.1 = s₃ := by
          simp only [createFresh, hbl, hadd]
          split <;> rfl
        have hres : (createFresh g s₁ wp bn).1 = (some wp, Option.none) := by
          simp only [createFresh, hbl, hadd]
          rw [if_neg (by omega)]
        rw [hres] at h
        have hp : p = wp := by
          have := congrArg Prod.fst h
          simpa using this.symm
        refine ⟨hp, (pyStrip out1).isEmpty, out2, stderr, ?_⟩
        rw [hproj]
        exact hadd
      · exfalso
        simp only [createFresh, hbl, hadd, if_pos hrc] at h
        exact Option.noConfusion (congrArg Prod.fst h)

/-- Claim C8: if `create_worktree` succeeds, an immediate second call with
the same `run_id` and branch (and a sane, uninterfered-with git world)
returns the same worktree path, performs no action at all — in particular
nothing destructive — and leaves the state untouched: the existing worktree
is validated and reused as-is. -/
theorem create_worktree_idempotent {σ : Type} (g : GitOps σ) (hg : GitSane g) (s : σ)
    (adw_id branch_name : String)
    (hfirst : (create_worktree g s adw_id branch_name).1 =
      (some (pyPathJoin (pyPathJoin g.project_root "trees") adw_id), Option.none)) :
    (create_worktree g ((create_worktree g s adw_id branch_name).2.1) adw_id branch_name).1 =
      (some (pyPathJoin (pyPathJoin g.project_root "trees") adw_id), Option.none) ∧
    (create_worktree g ((create_worktree g s adw_id branch_name).2.1) adw_id
        branch_name).2.2 = [] ∧
    (create_worktree g ((create_worktree g s adw_id branch_name).2.1) adw_id
        branch_name).2.1 = (create_worktree g s adw_id branch_name).2.1 := by
  have hearly : ∀ t : σ,
      g.path_exists t (pyPathJoin (pyPathJoin g.project_root "trees") adw_id) = true →
      (validate_worktree_path g t (pyPathJoin (pyPathJoin g.project_root "trees") adw_id)).1
        = true →
      create_worktree g t adw_id branch_name =
        ((some (pyPathJoin (pyPathJoin g.project_root "trees") adw_id), Option.none), t, []) := by
    intro t h1 h2
    simp only [create_worktree]
    rw [if_pos ⟨h1, h2⟩]
  by_cases hex : g.path_exists s (pyPathJoin (pyPathJoin g.project_root "trees") adw_id)
      = true ∧
      (validate_worktree_path g s (pyPathJoin (pyPathJoin g.project_root "trees") adw_id)).1
        = true
  · have h1 := hearly s hex.1 hex.2
    rw [h1]
    rw [hearly s hex.1 hex.2]
    exact ⟨rfl, rfl, rfl⟩
  · have hsplit : create_worktree g s adw_id branch_name =
        ((createFresh g
            (removeInvalid g s (pyPathJoin (pyPathJoin g.project_root "trees") adw_id)).1
            (pyPathJoin (pyPathJoin g.project_root "trees") adw_id) branch_name).1,
         (createFresh g
            (removeInvalid g s (pyPathJoin (pyPathJoin g.project_root "trees") adw_id)).1
            (pyPathJoin (pyPathJoin g.project_root "trees") adw_id) branch_name).2.1,
         (removeInvalid g s (pyPathJoin (pyPathJoin g.project_root "trees") adw_id)).2 ++
           (createFresh g
             (removeInvalid g s (pyPathJoin (pyPathJoin g.project_root "trees") adw_id)).1
             (pyPathJoin (pyPathJoin g.project_root "trees") adw_id) branch_name).2.2) := by
      simp only [create_worktree]
      rw [if_neg hex]
    have hcf : (createFresh g
        (removeInvalid g s (pyPathJoin (pyPathJoin g.project_root "trees") adw_id)).1
        (pyPathJoin (pyPathJoin g.project_root "trees") adw_id) branch_name).1 =
        (some (pyPathJoin (pyPathJoin g.project_root "trees") adw_id), Option.none) := by
      rw [hsplit] at hfirst
      exact hfirst
    obtain ⟨-, nb, out, stderr, hadd⟩ := createFresh_ok g
      (removeInvalid g s (pyPathJoin (pyPathJoin g.project_root "trees") adw_id)).1
      (pyPathJoin (pyPathJoin g.project_root "trees") adw_id) branch_name
      (pyPathJoin (pyPathJoin g.project_root "trees") adw_id) hcf
    obtain ⟨hpe, hdir, hgit, lout, hlist, hcont⟩ :=
      hg _ _ (pyPathJoin (pyPathJoin g.project_root "trees") adw_id) branch_name nb 0 out
        stderr hadd rfl
    have hvalid : (validate_worktree_path g
        (createFresh g
          (removeInvalid g s (pyPathJoin (pyPathJoin g.project_root "trees") adw_id)).1
          (pyPathJoin (pyPathJoin g.project_root "trees") adw_id) branch_name).2.1
        (pyPathJoin (pyPathJoin g.project_root "trees") adw_id)).1 = true := by
      simp [validate_worktree_path, hpe, hdir, hgit, hlist, hcont]
    have hs1 : (create_worktree g s adw_id branch_name).2.1 =
        (createFresh g
          (removeInvalid g s (pyPathJoin (pyPathJoin g.project_root "trees") adw_id)).1
          (pyPathJoin (pyPathJoin g.project_root "trees") adw_id) branch_name).2.1 := by
      rw [hsplit]
    rw [hs1]
    rw [hearly _ hpe hvalid]
    exact ⟨rfl, rfl, rfl⟩

/-- The canonical worktree path of the demo world. -/
def demoTreePath : String := "/repo/trees/adw1"

/-- A sane demo git world over the state "has the worktree been created". -/
def demoGit : GitOps Bool :=
  { project_root := "/repo",
    path_exists := fun s p =>
      s && (p == demoTreePath || p == demoTreePath ++ "/.git"),
    isdir := fun s p => s && p == demoTreePath,
    worktree_list := fun s => .ok (0, if s then demoTreePath else ""),
    branch_list := fun _ _ => .ok (0, ""),
    worktree_remove := fun _ _ => (.ok (0, ""), false),
    rmtree := fun _ _ => (.ok (), false),
    makedirs := fun s _ => s,
    worktree_add := fun s p _ _ =>
      if p == demoTreePath then (.ok (0, "", ""), true) else (.error "fatal", s) }

theorem demoGit_sane : GitSane demoGit := by
  intro s s' p br nb rc out stderr hadd hrc
  by_cases hp : p = demoTreePath
  · subst hp
    have hval : demoGit.worktree_add s demoTreePath br nb =
        (Except.ok ((0 : Int), "", ""), true) := by
      simp [demoGit]
    rw [hval] at hadd
    have hs' : s' = true := (congrArg Prod.snd hadd).symm
    subst hs'
    refine ⟨by decide, by decide, by decide, demoTreePath, rfl, by decide⟩
  · have hb : (p == demoTreePath) = false := beq_eq_false_iff_ne.mpr hp
    simp only [demoGit, hb] at hadd
    rw [if_neg (by simp [hb])] at hadd
    exact absurd (congrArg Prod.fst hadd) (by simp)

theorem create_worktree_idempotent_witness :
    (create_worktree demoGit
      ((create_worktree demoGit false "adw1" "feat").2.1) "adw1" "feat").1 =
      (some (pyPathJoin (pyPathJoin demoGit.project_root "trees") "adw1"), Option.none) ∧
    (create_worktree demoGit
      ((create_worktree demoGit false "adw1" "feat").2.1) "adw1" "feat").2.2 = [] ∧
    (create_worktree demoGit
      ((create_worktree demoGit false "adw1" "feat").2.1) "adw1" "feat").2.1 =
      (create_worktree demoGit false "adw1" "feat").2.1 :=
  create_worktree_idempotent demoGit demoGit_sane false "adw1" "feat" rfl

end ADW